import Mathlib

/-
Verification of the protocol/dispatch layer of the readwise MCP HTTP server
(src/server.ts): CORS short-circuit, API-key authentication middleware,
JSON-RPC envelope validation, method routing, the tool-invocation bridge,
and the SSE keep-alive stream.

JavaScript values flowing through the server are modelled by a JSON value
type; property access on a non-object yields none (undefined), and the
JavaScript truthiness test is made explicit.
-/

/-- JSON values, as produced by the body parser and consumed by res.json.
A missing property (undefined in JavaScript) is represented by Option.none
at use sites, never by a Json constructor. -/
inductive Json where
  | null : Json
  | bool : Bool → Json
  | num : Int → Json
  | str : String → Json
  | arr : List Json → Json
  | obj : List (String × Json) → Json

/-- Property lookup in an object field list: first binding wins. -/
def lookupField : List (String × Json) → String → Option Json
  | [], _ => none
  | (k, v) :: rest, key => if k = key then some v else lookupField rest key

/-- JavaScript property access request.k: on a non-object it yields
undefined, modelled as none. -/
def jsonGet : Json → String → Option Json
  | Json.obj fields, k => lookupField fields k
  | _, _ => none

/-- JavaScript truthiness of a JSON value: null, false, 0 and the empty
string are falsy; arrays and objects are always truthy. -/
def Json.truthy : Json → Bool
  | Json.null => false
  | Json.bool b => b
  | Json.num n => n != 0
  | Json.str s => s != ""
  | Json.arr _ => true
  | Json.obj _ => true

/-- Truthiness of a possibly-undefined value: undefined is falsy. -/
def jsTruthy : Option Json → Bool
  | none => false
  | some j => j.truthy

/-- The JavaScript strict equality x === lit for a possibly-undefined value
x and a string literal lit: true exactly when x is a string of the same
content. -/
def optStrEq : Option Json → String → Bool
  | some (Json.str s), t => s == t
  | _, _ => false

/-- The JavaScript expression a OR d (short-circuiting on truthiness) for a
possibly-undefined JSON value a and a defined default d, as in
request.params with default empty object. -/
def jsOrElse : Option Json → Json → Json
  | some j, d => if j.truthy then j else d
  | none, d => d

/-- The JavaScript expression x OR null, as in the id echo of the invalid
envelope response. -/
def jsOrNull (x : Option Json) : Json :=
  jsOrElse x Json.null

/-! ## HTTP requests and the server configuration -/

/-- An inbound HTTP request, restricted to the parts src/server.ts reads:
the verb, the path, the three credential locations, and the JSON body
parsed by express.json (an object or array under its strict mode). -/
structure HttpRequest where
  verb : String
  path : String
  authorizationHeader : Option String
  xApiKeyHeader : Option String
  apiKeyQuery : Option String
  body : Json

/-- The environment configuration the core logic reads: MCP_API_KEY, a
string environment variable that may be unset. -/
structure ServerConfig where
  mcpApiKey : Option String

/-- JavaScript truthiness of a possibly-undefined string: undefined and
the empty string are falsy. -/
def strTruthy : Option String → Bool
  | none => false
  | some s => s != ""

/-- The JavaScript expression a OR b on possibly-undefined strings:
b when a is undefined or empty. -/
def strOr (a b : Option String) : Option String :=
  if strTruthy a then a else b

/-- The apiKeyFromHeader computation of apiKeyAuth: the Authorization
header with a leading Bearer marker (7 characters) stripped when present,
the raw header value otherwise, undefined when the header is absent. The
startsWith and substring operations are modelled on the character list of
the header. -/
def apiKeyFromHeader : Option String → Option String
  | none => none
  | some h =>
    if h.data.take 7 = "Bearer ".data then some (String.mk (h.data.drop 7))
    else some h

/-- The 401 response body sent by apiKeyAuth when no credential was
provided. -/
def unauthorizedBody : Json :=
  Json.obj [("jsonrpc", Json.str "2.0"),
            ("error", Json.obj [("code", Json.num (-32001)),
                                ("message", Json.str "Unauthorized: API key required")]),
            ("id", Json.null)]

/-- The 403 response body sent by apiKeyAuth when the provided credential
does not equal the configured key. -/
def forbiddenBody : Json :=
  Json.obj [("jsonrpc", Json.str "2.0"),
            ("error", Json.obj [("code", Json.num (-32003)),
                                ("message", Json.str "Forbidden: Invalid API key")]),
            ("id", Json.null)]

/-- Outcome of the authentication middleware: either fall through to the
route handler, or short-circuit with an HTTP status and a JSON body. -/
inductive AuthResult where
  | allow : AuthResult
  | deny : Nat → Json → AuthResult

/-- The providedKey computation of apiKeyAuth: the JavaScript OR chain over
the bearer value, the X-API-Key header and the apiKey query parameter. -/
def providedKey (req : HttpRequest) : Option String :=
  strOr (strOr (apiKeyFromHeader req.authorizationHeader) req.xApiKeyHeader)
    req.apiKeyQuery

/-- The apiKeyAuth middleware of src/server.ts. Authentication is skipped
when MCP_API_KEY is unset (or empty, which JavaScript treats as falsy);
otherwise the request is rejected with 401 when the provided key is not
truthy, with 403 when the provided key differs from the configured key. -/
def apiKeyAuth (cfg : ServerConfig) (req : HttpRequest) : AuthResult :=
  if !(strTruthy cfg.mcpApiKey) then AuthResult.allow
  else if !(strTruthy (providedKey req)) then AuthResult.deny 401 unauthorizedBody
  else if providedKey req ≠ cfg.mcpApiKey then AuthResult.deny 403 forbiddenBody
  else AuthResult.allow

/-- Extraction of the error.code field of a response body. -/
def errorCode (j : Json) : Option Int :=
  match jsonGet j "error" with
  | some e =>
    match jsonGet e "code" with
    | some (Json.num n) => some n
    | _ => none
  | none => none

/-- Extraction of the error.message field of a response body. -/
def errorMessage (j : Json) : Option String :=
  match jsonGet j "error" with
  | some e =>
    match jsonGet e "message" with
    | some (Json.str s) => some s
    | _ => none
  | none => none

/-- Extraction of the error.data field of a response body. -/
def errorData (j : Json) : Option Json :=
  match jsonGet j "error" with
  | some e => jsonGet e "data"
  | none => none

/-! ## The /mcp JSON-RPC handler -/

/-- A failure thrown by the external collaborator handleToolCall: either an
Error instance carrying a message, or any other thrown value together with
its JavaScript String rendering. -/
inductive ToolError where
  | jsError : String → ToolError
  | other : String → ToolError

/-- The string rendering the handler attaches as error.data: the message of
an Error instance, the String coercion of any other thrown value. -/
def ToolError.render : ToolError → String
  | ToolError.jsError m => m
  | ToolError.other s => s

/-- The external collaborator contract: handleToolCall receives the name
and arguments values taken from params and either returns a result value
or fails. -/
def Collaborator : Type :=
  Json → Json → Except ToolError Json

/-- Outcome of the /mcp route handler: the HTTP status, the JSON body sent
by res.json, and the list of (name, arguments) invocations made on the
external collaborator (used to observe that the bridge was or was not
called). -/
structure McpResult where
  status : Nat
  body : Json
  calls : List (Json × Json)

/-- The result object of the initialize method: fixed protocol version,
capability set and server identity. -/
def initResult : Json :=
  Json.obj [("protocolVersion", Json.str "2024-11-05"),
            ("capabilities", Json.obj [("tools", Json.obj [])]),
            ("serverInfo", Json.obj [("name", Json.str "readwise-mcp-enhanced"),
                                     ("version", Json.str "1.0.0")])]

/-- The id field of a response object built with id: request.id — res.json
omits the property entirely when request.id is undefined, and echoes the
value (including null, 0 or the empty string) otherwise. -/
def idField (request : Json) : List (String × Json) :=
  match jsonGet request "id" with
  | none => []
  | some j => [("id", j)]

/-- The invalid-params response body of the tools/call branch, sent when
params carries no truthy name. -/
def invalidParamsBody (request : Json) : Json :=
  Json.obj ([("jsonrpc", Json.str "2.0")] ++ idField request ++
            [("error", Json.obj [("code", Json.num (-32602)),
                                 ("message", Json.str "Invalid params: tool name is required")])])

/-- The tools/call branch after the name was found truthy: invoke the
collaborator with arguments defaulted to the empty object, pass a success
through as result, and map a failure to error -32603 with message Internal
error and data the rendered failure. -/
def bridgeCall (handleToolCall : Collaborator) (request : Json)
    (nameVal : Json) (args : Option Json) : McpResult :=
  match handleToolCall nameVal (jsOrElse args (Json.obj [])) with
  | Except.ok result =>
    { status := 200
      body := Json.obj ([("jsonrpc", Json.str "2.0")] ++ idField request ++
                        [("result", result)])
      calls := [(nameVal, jsOrElse args (Json.obj []))] }
  | Except.error e =>
    { status := 200
      body := Json.obj ([("jsonrpc", Json.str "2.0")] ++ idField request ++
                        [("error", Json.obj [("code", Json.num (-32603)),
                                             ("message", Json.str "Internal error"),
                                             ("data", Json.str e.render)])])
      calls := [(nameVal, jsOrElse args (Json.obj []))] }

/-- The /mcp route handler of src/server.ts, after apiKeyAuth allowed the
request. The envelope is rejected with 400 and error -32600 unless the
jsonrpc field is exactly the string 2.0 (the source condition, falsy or
strictly unequal, is equivalent to optStrEq being false); the method then
dispatches over initialize, tools/list and tools/call, every other method
value answering error -32601. tools is the static catalog imported from
tool-definitions, opaque to this layer. -/
def mcpHandler (tools : Json) (handleToolCall : Collaborator)
    (request : Json) : McpResult :=
  if !(jsTruthy (jsonGet request "jsonrpc")) ||
      !(optStrEq (jsonGet request "jsonrpc") "2.0") then
    { status := 400
      body := Json.obj [("jsonrpc", Json.str "2.0"),
                        ("error", Json.obj [("code", Json.num (-32600)),
                                            ("message", Json.str "Invalid Request")]),
                        ("id", jsOrNull (jsonGet request "id"))]
      calls := [] }
  else if optStrEq (jsonGet request "method") "initialize" then
    { status := 200
      body := Json.obj ([("jsonrpc", Json.str "2.0")] ++ idField request ++
                        [("result", initResult)])
      calls := [] }
  else if optStrEq (jsonGet request "method") "tools/list" then
    { status := 200
      body := Json.obj ([("jsonrpc", Json.str "2.0")] ++ idField request ++
                        [("result", Json.obj [("tools", tools)])])
      calls := [] }
  else if optStrEq (jsonGet request "method") "tools/call" then
    match jsonGet (jsOrElse (jsonGet request "params") (Json.obj [])) "name" with
    | none => { status := 200, body := invalidParamsBody request, calls := [] }
    | some nameVal =>
      if !(nameVal.truthy) then
        { status := 200, body := invalidParamsBody request, calls := [] }
      else
        bridgeCall handleToolCall request nameVal
          (jsonGet (jsOrElse (jsonGet request "params") (Json.obj [])) "arguments")
  else
    { status := 200
      body := Json.obj ([("jsonrpc", Json.str "2.0")] ++ idField request ++
                        [("error", Json.obj [("code", Json.num (-32601)),
                                             ("message", Json.str "Method not found")])])
      calls := [] }

/-- A collaborator that never fails, used in concrete test evaluations. -/
def okCollab : Collaborator := fun _ _ => Except.ok Json.null

/-- A collaborator that always throws an Error with message boom, used in
concrete test evaluations. -/
def failCollab : Collaborator := fun _ _ => Except.error (ToolError.jsError "boom")

/-- An empty tool catalog, used in concrete test evaluations. -/
def noTools : Json := Json.arr []

/-! ## The whole request pipeline -/

/-- An HTTP response of the app: a bare status set by res.sendStatus (no
JSON body), a JSON body sent by res.json with its status, or an opened
text/event-stream connection. -/
inductive HttpResponse where
  | statusOnly : Nat → HttpResponse
  | json : Nat → Json → HttpResponse
  | stream : HttpResponse

/-- Outcome of running the express pipeline on one request: the response,
whether the apiKeyAuth middleware ran, whether a route handler behind it
ran (the router), and the collaborator invocations made. -/
structure AppResult where
  response : HttpResponse
  authGateReached : Bool
  routerReached : Bool
  calls : List (Json × Json)

/-- The /health response body. -/
def healthBody : Json :=
  Json.obj [("status", Json.str "ok"), ("service", Json.str "readwise-mcp-enhanced")]

/-- The express pipeline of src/server.ts: the CORS middleware answers any
OPTIONS request with a bare 200 before any route is matched; GET /health
is unauthenticated; POST /mcp and GET /sse run apiKeyAuth first and reach
their handler only on allow; any other request falls through to the
express 404. -/
def handleRequest (cfg : ServerConfig) (tools : Json)
    (handleToolCall : Collaborator) (req : HttpRequest) : AppResult :=
  if req.verb = "OPTIONS" then
    { response := HttpResponse.statusOnly 200
      authGateReached := false, routerReached := false, calls := [] }
  else if req.verb = "GET" ∧ req.path = "/health" then
    { response := HttpResponse.json 200 healthBody
      authGateReached := false, routerReached := false, calls := [] }
  else if req.verb = "POST" ∧ req.path = "/mcp" then
    match apiKeyAuth cfg req with
    | AuthResult.deny s b =>
      { response := HttpResponse.json s b
        authGateReached := true, routerReached := false, calls := [] }
    | AuthResult.allow =>
      { response := HttpResponse.json (mcpHandler tools handleToolCall req.body).status
          (mcpHandler tools handleToolCall req.body).body
        authGateReached := true, routerReached := true
        calls := (mcpHandler tools handleToolCall req.body).calls }
  else if req.verb = "GET" ∧ req.path = "/sse" then
    match apiKeyAuth cfg req with
    | AuthResult.deny s b =>
      { response := HttpResponse.json s b
        authGateReached := true, routerReached := false, calls := [] }
    | AuthResult.allow =>
      { response := HttpResponse.stream
        authGateReached := true, routerReached := false, calls := [] }
  else
    { response := HttpResponse.statusOnly 404
      authGateReached := false, routerReached := false, calls := [] }

/-! ## The /sse streaming channel -/

/-- The two event kinds the stream carries: the initial connection message
and the periodic keep-alive comment. -/
inductive SSEEvent where
  | connection : SSEEvent
  | keepalive : SSEEvent
deriving DecidableEq

/-- The interval passed to setInterval in the /sse handler, in
milliseconds: 30000 ms, that is 30 units of one second. -/
def keepAliveIntervalMs : Nat := 30000

/-- State of one /sse connection: the (timestamp, event) list written so
far, whether the interval timer is still registered, and the time of its
next firing. -/
structure SSEConn where
  emitted : List (Nat × SSEEvent)
  timerActive : Bool
  nextFire : Nat

/-- Opening /sse: the connection message is written immediately and the
keep-alive timer is registered with its first firing one interval later. -/
def sseOpen : SSEConn :=
  { emitted := [(0, SSEEvent.connection)]
    timerActive := true
    nextFire := keepAliveIntervalMs }

/-- The event loop firing the interval timer: if it is still registered, a
keep-alive is written at the scheduled time and the next firing is one
interval later; a cleared timer does nothing. -/
def sseFire (c : SSEConn) : SSEConn :=
  if c.timerActive then
    { emitted := c.emitted ++ [(c.nextFire, SSEEvent.keepalive)]
      timerActive := true
      nextFire := c.nextFire + keepAliveIntervalMs }
  else c

/-- The close handler: clearInterval removes the timer registration. -/
def sseCloseConn (c : SSEConn) : SSEConn :=
  { c with timerActive := false }

/-- The observable happenings on one /sse connection after it opened: each
timer firing occasion, and the client closing the connection. -/
inductive SSEAction where
  | fire : SSEAction
  | close : SSEAction

/-- One event-loop step on the connection state. -/
def sseStep (c : SSEConn) (a : SSEAction) : SSEConn :=
  match a with
  | SSEAction.fire => sseFire c
  | SSEAction.close => sseCloseConn c

/-- Running a whole history of happenings from the open of the stream. -/
def sseRun (acts : List SSEAction) : SSEConn :=
  acts.foldl sseStep sseOpen

/-! ## Claim-side notions for the authentication precedence -/

/-- The three credential locations in the precedence order the claim
states: bearer-style Authorization value, then X-API-Key header, then
apiKey query parameter. -/
def credCandidates (req : HttpRequest) : List (Option String) :=
  [apiKeyFromHeader req.authorizationHeader, req.xApiKeyHeader, req.apiKeyQuery]

/-- The first non-empty candidate of an ordered candidate list, the
provided credential in the words of the claim; none when every candidate
is absent or empty. -/
def firstTruthy : List (Option String) → Option String
  | [] => none
  | c :: cs => if strTruthy c then c else firstTruthy cs

/-! ## Helper lemmas -/

theorem optStrEq_true_iff (x : Option Json) (t : String) :
    optStrEq x t = true ↔ x = some (Json.str t) := by
  cases x with
  | none => simp [optStrEq]
  | some j => cases j <;> simp [optStrEq]

theorem jsonGet_response_error (request : Json) (e : Json) :
    jsonGet (Json.obj ([("jsonrpc", Json.str "2.0")] ++ idField request ++
      [("error", e)])) "error" = some e := by
  unfold idField
  cases jsonGet request "id" <;> simp [jsonGet, lookupField]

theorem jsonGet_response_result (request : Json) (r : Json) :
    jsonGet (Json.obj ([("jsonrpc", Json.str "2.0")] ++ idField request ++
      [("result", r)])) "result" = some r := by
  unfold idField
  cases jsonGet request "id" <;> simp [jsonGet, lookupField]

theorem errorCode_invalidParamsBody (request : Json) :
    errorCode (invalidParamsBody request) = some (-32602) := by
  unfold errorCode invalidParamsBody
  rw [jsonGet_response_error]
  rfl

theorem firstTruthy_spec (a b q : Option String) :
    firstTruthy [a, b, q] =
      if strTruthy (strOr (strOr a b) q) then strOr (strOr a b) q else none := by
  cases ha : strTruthy a <;> cases hb : strTruthy b <;> cases hq : strTruthy q <;>
    simp [firstTruthy, strOr, ha, hb, hq]

/-- The apiKeyAuth middleware with a configured, non-empty secret decides
exactly by the first truthy credential candidate. -/
theorem apiKeyAuth_firstTruthy (k : String) (hk : k ≠ "") (req : HttpRequest) :
    apiKeyAuth ⟨some k⟩ req =
      match firstTruthy (credCandidates req) with
      | none => AuthResult.deny 401 unauthorizedBody
      | some c =>
        if c = k then AuthResult.allow else AuthResult.deny 403 forbiddenBody := by
  have hk1 : strTruthy (some k) = true := by simp [strTruthy, hk]
  unfold apiKeyAuth credCandidates providedKey
  rw [firstTruthy_spec]
  simp only [hk1, Bool.not_true, Bool.false_eq_true, if_false]
  cases hp : strTruthy (strOr (strOr (apiKeyFromHeader req.authorizationHeader)
      req.xApiKeyHeader) req.apiKeyQuery)
  · simp [hp]
  · rcases hP : strOr (strOr (apiKeyFromHeader req.authorizationHeader)
        req.xApiKeyHeader) req.apiKeyQuery with _ | c
    · rw [hP] at hp
      simp [strTruthy] at hp
    · rw [hP] at hp
      simp only [hp, hP, Bool.not_true, Bool.false_eq_true, if_false, if_true]
      by_cases hc : c = k
      · simp [hc]
      · simp [hc, Option.some.injEq]

/-- Dispatch of a valid envelope whose method is tools/call: the handler
reduces to the name check followed by the bridge call. -/
theorem mcpHandler_toolsCall (tools : Json) (htc : Collaborator) (request : Json)
    (hjr : optStrEq (jsonGet request "jsonrpc") "2.0" = true)
    (hm : optStrEq (jsonGet request "method") "tools/call" = true) :
    mcpHandler tools htc request =
      match jsonGet (jsOrElse (jsonGet request "params") (Json.obj [])) "name" with
      | none => { status := 200, body := invalidParamsBody request, calls := [] }
      | some nameVal =>
        if !(nameVal.truthy) then
          { status := 200, body := invalidParamsBody request, calls := [] }
        else
          bridgeCall htc request nameVal
            (jsonGet (jsOrElse (jsonGet request "params") (Json.obj []))
              "arguments") := by
  have hjEq := (optStrEq_true_iff _ _).mp hjr
  have hmEq := (optStrEq_true_iff _ _).mp hm
  unfold mcpHandler
  rw [hjEq, hmEq, if_neg (by decide), if_neg (by decide), if_neg (by decide),
    if_pos (by decide)]

/-- The error fields of the internal-error response body built by the
bridge on a collaborator failure. -/
theorem internalErrorBody_fields (request : Json) (d : String) :
    errorCode (Json.obj ([("jsonrpc", Json.str "2.0")] ++ idField request ++
        [("error", Json.obj [("code", Json.num (-32603)),
                             ("message", Json.str "Internal error"),
                             ("data", Json.str d)])])) = some (-32603) ∧
    errorMessage (Json.obj ([("jsonrpc", Json.str "2.0")] ++ idField request ++
        [("error", Json.obj [("code", Json.num (-32603)),
                             ("message", Json.str "Internal error"),
                             ("data", Json.str d)])])) = some "Internal error" ∧
    errorData (Json.obj ([("jsonrpc", Json.str "2.0")] ++ idField request ++
        [("error", Json.obj [("code", Json.num (-32603)),
                             ("message", Json.str "Internal error"),
                             ("data", Json.str d)])])) = some (Json.str d) := by
  refine ⟨?_, ?_, ?_⟩ <;>
    first
    | (unfold errorCode; rw [jsonGet_response_error]; rfl)
    | (unfold errorMessage; rw [jsonGet_response_error]; rfl)
    | (unfold errorData; rw [jsonGet_response_error]; rfl)

/-! ## C1: authentication precedence with a configured secret -/

/-- C1: with a configured non-empty secret, the three credential locations
are consulted in the fixed order bearer value, X-API-Key header, apiKey
query parameter; the first non-empty candidate is the provided credential.
No non-empty candidate answers 401 with error code -32001; a provided
credential different from the secret answers 403 with error code -32003,
whatever the later candidates hold; a provided credential equal to the
secret is allowed and a POST /mcp request then reaches the router. -/
theorem c1_configured_auth_precedence (k : String) (hk : k ≠ "")
    (req : HttpRequest) :
    (firstTruthy (credCandidates req) = none →
       apiKeyAuth ⟨some k⟩ req = AuthResult.deny 401 unauthorizedBody ∧
       errorCode unauthorizedBody = some (-32001)) ∧
    (∀ c, firstTruthy (credCandidates req) = some c → c ≠ k →
       apiKeyAuth ⟨some k⟩ req = AuthResult.deny 403 forbiddenBody ∧
       errorCode forbiddenBody = some (-32003)) ∧
    (firstTruthy (credCandidates req) = some k →
       apiKeyAuth ⟨some k⟩ req = AuthResult.allow ∧
       (∀ tools htc, req.verb = "POST" → req.path = "/mcp" →
         (handleRequest ⟨some k⟩ tools htc req).routerReached = true)) := by
  refine ⟨?_, ?_, ?_⟩
  · intro h
    rw [apiKeyAuth_firstTruthy k hk, h]
    exact ⟨rfl, rfl⟩
  · intro c h hck
    rw [apiKeyAuth_firstTruthy k hk, h]
    exact ⟨by simp [hck], rfl⟩
  · intro h
    have hallow : apiKeyAuth ⟨some k⟩ req = AuthResult.allow := by
      rw [apiKeyAuth_firstTruthy k hk, h]
      simp
    refine ⟨hallow, ?_⟩
    intro tools htc hv hp
    have h1 : ¬ (req.verb = "OPTIONS") := by
      rw [hv]
      decide
    have h2 : ¬ (req.verb = "GET" ∧ req.path = "/health") := by
      rintro ⟨hg, _⟩
      rw [hv] at hg
      exact absurd hg (by decide)
    have h3 : req.verb = "POST" ∧ req.path = "/mcp" := ⟨hv, hp⟩
    unfold handleRequest
    rw [if_neg h1, if_neg h2, if_pos h3, hallow]

/-- Witness for C1: the secret k supplied as a bearer credential makes a
POST /mcp request pass the gate. -/
theorem c1_configured_auth_precedence_witness :
    apiKeyAuth ⟨some "k"⟩
      ⟨"POST", "/mcp", some "Bearer k", none, none, Json.obj []⟩ =
      AuthResult.allow :=
  ((c1_configured_auth_precedence "k" (by decide)
    ⟨"POST", "/mcp", some "Bearer k", none, none, Json.obj []⟩).2.2 rfl).1

/-! ## C6: unconfigured secret disables authentication -/

/-- C6: when no shared secret (MCP_API_KEY) is configured, the apiKeyAuth
middleware returns allow for every request, whatever credentials the
request carries, including none at all. -/
theorem c6_unconfigured_secret_allows_all (req : HttpRequest) :
    apiKeyAuth ⟨none⟩ req = AuthResult.allow := rfl

/-! ## C9: OPTIONS short-circuits in the CORS middleware -/

/-- C9: every OPTIONS request, whatever its path, is answered by the CORS
middleware with a bare 200 status carrying no JSON body, before the
authentication middleware or any route handler runs and with no
collaborator invocation. -/
theorem c9_options_short_circuit (cfg : ServerConfig) (tools : Json)
    (htc : Collaborator) (req : HttpRequest) (h : req.verb = "OPTIONS") :
    handleRequest cfg tools htc req =
      { response := HttpResponse.statusOnly 200
        authGateReached := false, routerReached := false, calls := [] } := by
  unfold handleRequest
  rw [if_pos h]

/-- Witness for C9 at a concrete OPTIONS request to /mcp. -/
theorem c9_options_short_circuit_witness :
    handleRequest ⟨some "k"⟩ noTools okCollab
      ⟨"OPTIONS", "/mcp", none, none, none, Json.obj []⟩ =
      { response := HttpResponse.statusOnly 200
        authGateReached := false, routerReached := false, calls := [] } :=
  c9_options_short_circuit ⟨some "k"⟩ noTools okCollab
    ⟨"OPTIONS", "/mcp", none, none, none, Json.obj []⟩ rfl

/-! ## C2: envelope rejection and the id echo -/

/-- C2 counterexample: the inbound payload with a missing jsonrpc field
and the present id 0 is rejected with error code -32600, but the response
id is null, not the inbound id 0 that the claim requires to be echoed: the
source computes the echo as request.id OR null, which nullifies every
falsy id. -/
theorem c2_id_echo_counterexample :
    errorCode (mcpHandler noTools okCollab (Json.obj [("id", Json.num 0)])).body =
      some (-32600) ∧
    jsonGet (Json.obj [("id", Json.num 0)]) "id" = some (Json.num 0) ∧
    jsonGet (mcpHandler noTools okCollab (Json.obj [("id", Json.num 0)])).body "id" =
      some Json.null ∧
    Json.null ≠ Json.num 0 :=
  ⟨rfl, rfl, rfl, fun h => Json.noConfusion h⟩

/-- C2 amended: every inbound payload whose jsonrpc field is missing, of a
non-string type, or not exactly the string 2.0 is answered with status 400
and error code -32600, and the response id echoes the inbound id when that
id is present and truthy, and is null when the id is absent or falsy
(null, 0, false or the empty string). -/
theorem c2_invalid_envelope (tools : Json) (htc : Collaborator) (request : Json)
    (h : optStrEq (jsonGet request "jsonrpc") "2.0" = false) :
    (mcpHandler tools htc request).status = 400 ∧
    errorCode (mcpHandler tools htc request).body = some (-32600) ∧
    jsonGet (mcpHandler tools htc request).body "id" =
      some (jsOrNull (jsonGet request "id")) := by
  unfold mcpHandler
  split
  · exact ⟨rfl, rfl, rfl⟩
  · rename_i hcond
    rw [h] at hcond
    simp at hcond

/-- Witness for C2 amended: a payload whose jsonrpc field holds the number
2 is rejected with 400, error code -32600 and a null id. -/
theorem c2_invalid_envelope_witness :
    (mcpHandler noTools okCollab
      (Json.obj [("jsonrpc", Json.num 2)])).status = 400 ∧
    errorCode (mcpHandler noTools okCollab
      (Json.obj [("jsonrpc", Json.num 2)])).body = some (-32600) ∧
    jsonGet (mcpHandler noTools okCollab
      (Json.obj [("jsonrpc", Json.num 2)])).body "id" =
      some (jsOrNull (jsonGet (Json.obj [("jsonrpc", Json.num 2)]) "id")) :=
  c2_invalid_envelope noTools okCollab (Json.obj [("jsonrpc", Json.num 2)]) rfl

/-! ## C10: authentication failures answer with a null id -/

/-- C10: every rejection of apiKeyAuth carries id null in its body,
whatever id the inbound request body held, and the rejection is either the
401 with error code -32001 or the 403 with error code -32003. -/
theorem c10_auth_failure_id_null (cfg : ServerConfig) (req : HttpRequest)
    (s : Nat) (b : Json) (h : apiKeyAuth cfg req = AuthResult.deny s b) :
    jsonGet b "id" = some Json.null ∧
    ((s = 401 ∧ errorCode b = some (-32001)) ∨
     (s = 403 ∧ errorCode b = some (-32003))) := by
  unfold apiKeyAuth at h
  split at h
  · exact AuthResult.noConfusion h
  · split at h
    · cases h
      exact ⟨rfl, Or.inl ⟨rfl, rfl⟩⟩
    · split at h
      · cases h
        exact ⟨rfl, Or.inr ⟨rfl, rfl⟩⟩
      · exact AuthResult.noConfusion h

/-- Witness for C10: a configured secret and a request that carries an id
in its body but no credential is denied with 401 and a null id. -/
theorem c10_auth_failure_id_null_witness :
    jsonGet unauthorizedBody "id" = some Json.null ∧
    ((401 = 401 ∧ errorCode unauthorizedBody = some (-32001)) ∨
     (401 = 403 ∧ errorCode unauthorizedBody = some (-32003))) :=
  c10_auth_failure_id_null ⟨some "k"⟩
    ⟨"POST", "/mcp", none, none, none, Json.obj [("id", Json.num 5)]⟩
    401 unauthorizedBody rfl

/-! ## C5: unknown methods answer method-not-found -/

/-- C5: every valid envelope whose method value differs from each of
initialize, tools/list and tools/call (a missing method field included) is
answered with error code -32601. -/
theorem c5_unknown_method (tools : Json) (htc : Collaborator) (request : Json)
    (hjr : optStrEq (jsonGet request "jsonrpc") "2.0" = true)
    (h1 : optStrEq (jsonGet request "method") "initialize" = false)
    (h2 : optStrEq (jsonGet request "method") "tools/list" = false)
    (h3 : optStrEq (jsonGet request "method") "tools/call" = false) :
    errorCode (mcpHandler tools htc request).body = some (-32601) := by
  have hjEq := (optStrEq_true_iff _ _).mp hjr
  unfold mcpHandler
  rw [hjEq, if_neg (by decide), if_neg (by simp [h1]), if_neg (by simp [h2]),
    if_neg (by simp [h3])]
  dsimp only
  unfold errorCode
  rw [jsonGet_response_error]
  rfl

/-- Witness for C5 at a valid envelope with the unknown method nope. -/
theorem c5_unknown_method_witness :
    errorCode (mcpHandler noTools okCollab
      (Json.obj [("jsonrpc", Json.str "2.0"),
                 ("method", Json.str "nope")])).body = some (-32601) :=
  c5_unknown_method noTools okCollab
    (Json.obj [("jsonrpc", Json.str "2.0"), ("method", Json.str "nope")])
    rfl rfl rfl rfl

/-! ## C4: tools/call without a usable name never reaches the bridge -/

/-- C4: every valid tools/call envelope whose params carry no name field or
a falsy name (the empty string included) is answered with error code
-32602 and the external collaborator is never invoked. -/
theorem c4_missing_name (tools : Json) (htc : Collaborator) (request : Json)
    (hjr : optStrEq (jsonGet request "jsonrpc") "2.0" = true)
    (hm : optStrEq (jsonGet request "method") "tools/call" = true)
    (hname : jsTruthy (jsonGet (jsOrElse (jsonGet request "params")
      (Json.obj [])) "name") = false) :
    errorCode (mcpHandler tools htc request).body = some (-32602) ∧
    (mcpHandler tools htc request).calls = [] := by
  rw [mcpHandler_toolsCall tools htc request hjr hm]
  rcases hn : jsonGet (jsOrElse (jsonGet request "params") (Json.obj [])) "name"
    with _ | nv
  · exact ⟨errorCode_invalidParamsBody request, rfl⟩
  · rw [hn] at hname
    simp only [jsTruthy] at hname
    simp [hname, errorCode_invalidParamsBody]

/-- Witness for C4 at a valid tools/call envelope with no params at all. -/
theorem c4_missing_name_witness :
    errorCode (mcpHandler noTools okCollab
      (Json.obj [("jsonrpc", Json.str "2.0"),
                 ("method", Json.str "tools/call")])).body = some (-32602) ∧
    (mcpHandler noTools okCollab
      (Json.obj [("jsonrpc", Json.str "2.0"),
                 ("method", Json.str "tools/call")])).calls = [] :=
  c4_missing_name noTools okCollab
    (Json.obj [("jsonrpc", Json.str "2.0"), ("method", Json.str "tools/call")])
    rfl rfl rfl

/-! ## C3: collaborator failures are caught and normalized -/

/-- C3: for every tools/call envelope carrying a truthy name, when the
collaborator fails with any error the handler still answers, with HTTP
status 200, error code -32603, message Internal error, and data the string
rendering of the failure; no collaborator failure escapes the bridge. -/
theorem c3_collaborator_failure (tools : Json) (htc : Collaborator)
    (request : Json) (nameVal : Json) (e : ToolError)
    (hjr : optStrEq (jsonGet request "jsonrpc") "2.0" = true)
    (hm : optStrEq (jsonGet request "method") "tools/call" = true)
    (hn : jsonGet (jsOrElse (jsonGet request "params") (Json.obj [])) "name" =
      some nameVal)
    (ht : nameVal.truthy = true)
    (hfail : htc nameVal (jsOrElse (jsonGet (jsOrElse (jsonGet request "params")
      (Json.obj [])) "arguments") (Json.obj [])) = Except.error e) :
    (mcpHandler tools htc request).status = 200 ∧
    errorCode (mcpHandler tools htc request).body = some (-32603) ∧
    errorMessage (mcpHandler tools htc request).body = some "Internal error" ∧
    errorData (mcpHandler tools htc request).body = some (Json.str e.render) := by
  rw [mcpHandler_toolsCall tools htc request hjr hm, hn]
  simp only [ht, Bool.not_true, Bool.false_eq_true, if_false]
  unfold bridgeCall
  rw [hfail]
  exact ⟨rfl, internalErrorBody_fields request e.render⟩

/-- Witness for C3: a collaborator throwing an Error with message boom for
the tool X yields status 200 and the normalized internal error. -/
theorem c3_collaborator_failure_witness :
    (mcpHandler noTools failCollab
      (Json.obj [("jsonrpc", Json.str "2.0"), ("method", Json.str "tools/call"),
                 ("params", Json.obj [("name", Json.str "X")])])).status = 200 ∧
    errorCode (mcpHandler noTools failCollab
      (Json.obj [("jsonrpc", Json.str "2.0"), ("method", Json.str "tools/call"),
                 ("params", Json.obj [("name", Json.str "X")])])).body =
      some (-32603) ∧
    errorMessage (mcpHandler noTools failCollab
      (Json.obj [("jsonrpc", Json.str "2.0"), ("method", Json.str "tools/call"),
                 ("params", Json.obj [("name", Json.str "X")])])).body =
      some "Internal error" ∧
    errorData (mcpHandler noTools failCollab
      (Json.obj [("jsonrpc", Json.str "2.0"), ("method", Json.str "tools/call"),
                 ("params", Json.obj [("name", Json.str "X")])])).body =
      some (Json.str (ToolError.jsError "boom").render) :=
  c3_collaborator_failure noTools failCollab
    (Json.obj [("jsonrpc", Json.str "2.0"), ("method", Json.str "tools/call"),
               ("params", Json.obj [("name", Json.str "X")])])
    (Json.str "X") (ToolError.jsError "boom") rfl rfl rfl rfl rfl

/-! ## C7: successful tool calls pass the result through untouched -/

/-- C7: for every tools/call envelope carrying a truthy name, when the
collaborator returns a result the response carries that exact value in its
result field, with status 200. -/
theorem c7_result_passthrough (tools : Json) (htc : Collaborator)
    (request : Json) (nameVal : Json) (result : Json)
    (hjr : optStrEq (jsonGet request "jsonrpc") "2.0" = true)
    (hm : optStrEq (jsonGet request "method") "tools/call" = true)
    (hn : jsonGet (jsOrElse (jsonGet request "params") (Json.obj [])) "name" =
      some nameVal)
    (ht : nameVal.truthy = true)
    (hok : htc nameVal (jsOrElse (jsonGet (jsOrElse (jsonGet request "params")
      (Json.obj [])) "arguments") (Json.obj [])) = Except.ok result) :
    (mcpHandler tools htc request).status = 200 ∧
    jsonGet (mcpHandler tools htc request).body "result" = some result := by
  rw [mcpHandler_toolsCall tools htc request hjr hm, hn]
  simp only [ht, Bool.not_true, Bool.false_eq_true, if_false]
  unfold bridgeCall
  rw [hok]
  exact ⟨rfl, jsonGet_response_result request result⟩

/-- Witness for C7: a collaborator returning null for the tool X yields a
response whose result field is exactly null. -/
theorem c7_result_passthrough_witness :
    (mcpHandler noTools okCollab
      (Json.obj [("jsonrpc", Json.str "2.0"), ("method", Json.str "tools/call"),
                 ("params", Json.obj [("name", Json.str "X")])])).status = 200 ∧
    jsonGet (mcpHandler noTools okCollab
      (Json.obj [("jsonrpc", Json.str "2.0"), ("method", Json.str "tools/call"),
                 ("params", Json.obj [("name", Json.str "X")])])).body "result" =
      some Json.null :=
  c7_result_passthrough noTools okCollab
    (Json.obj [("jsonrpc", Json.str "2.0"), ("method", Json.str "tools/call"),
               ("params", Json.obj [("name", Json.str "X")])])
    (Json.str "X") Json.null rfl rfl rfl rfl rfl

/-! ## C8: the SSE stream -/

/-- Every reachable /sse connection state consists of the single
connection event at time 0 followed by the keep-alive events stamped at
consecutive multiples of the interval, with the next firing scheduled one
interval after the last. -/
theorem sseRun_spec (acts : List SSEAction) :
    ∃ m, (sseRun acts).emitted =
        (0, SSEEvent.connection) ::
          (List.range m).map
            (fun i => ((i + 1) * keepAliveIntervalMs, SSEEvent.keepalive)) ∧
      (sseRun acts).nextFire = (m + 1) * keepAliveIntervalMs := by
  induction acts using List.reverseRecOn with
  | nil => exact ⟨0, rfl, rfl⟩
  | append_singleton acts a ih =>
    rcases ih with ⟨m, h1, h2⟩
    unfold sseRun at h1 h2 ⊢
    rw [List.foldl_append]
    cases a with
    | close =>
      exact ⟨m, h1, h2⟩
    | fire =>
      simp only [List.foldl_cons, List.foldl_nil, sseStep, sseFire]
      cases hact : (acts.foldl sseStep sseOpen).timerActive with
      | false =>
        rw [if_neg (by simp [hact])]
        exact ⟨m, h1, h2⟩
      | true =>
        rw [if_pos (by simp [hact])]
        refine ⟨m + 1, ?_, ?_⟩
        · simp only [h1, h2, List.range_succ, List.map_append, List.map_cons,
            List.map_nil, List.cons_append]
        · simp only [h2]
          ring

/-- Once the timer registration is cleared, no later happening changes the
emitted events or reactivates the timer. -/
theorem sse_closed_absorbs (more : List SSEAction) :
    ∀ c : SSEConn, c.timerActive = false →
      (more.foldl sseStep c).emitted = c.emitted ∧
      (more.foldl sseStep c).timerActive = false := by
  induction more with
  | nil => exact fun c h => ⟨rfl, h⟩
  | cons a more ih =>
    intro c h
    cases a with
    | fire =>
      have hstep : sseStep c SSEAction.fire = c := by
        simp [sseStep, sseFire, h]
      rw [List.foldl_cons, hstep]
      exact ih c h
    | close =>
      rw [List.foldl_cons]
      have := ih (sseStep c SSEAction.close) rfl
      exact ⟨this.1.trans rfl, this.2⟩

/-- Keep-alive entries never pass the connection filter. -/
theorem filter_connection_keepalives (m : Nat) :
    ((List.range m).map
        (fun i => ((i + 1) * keepAliveIntervalMs, SSEEvent.keepalive))).filter
      (fun te => te.2 == SSEEvent.connection) = [] := by
  induction m with
  | zero => rfl
  | succ m ih =>
    rw [List.range_succ, List.map_append, List.filter_append, ih]
    rfl

/-- C8: on every /sse stream the emitted events are exactly one
connection-established event, stamped at time 0 and written before
anything else, followed only by keep-alive events whose i-th entry is
stamped (i+1) times the fixed interval of 30000 ms (30 units of one
second); and once the client closes the connection the interval timer is
cleared, so no later timer firing emits anything. -/
theorem c8_sse_stream (acts more : List SSEAction) :
    (∃ m, (sseRun acts).emitted =
        (0, SSEEvent.connection) ::
          (List.range m).map
            (fun i => ((i + 1) * keepAliveIntervalMs, SSEEvent.keepalive))) ∧
    ((sseRun acts).emitted.filter
      (fun te => te.2 == SSEEvent.connection)).length = 1 ∧
    (sseRun (acts ++ SSEAction.close :: more)).emitted =
      (sseRun (acts ++ [SSEAction.close])).emitted := by
  rcases sseRun_spec acts with ⟨m, h1, _⟩
  refine ⟨⟨m, h1⟩, ?_, ?_⟩
  · rw [h1, List.filter_cons]
    simp only [filter_connection_keepalives]
    rfl
  · have hsplit : acts ++ SSEAction.close :: more =
        (acts ++ [SSEAction.close]) ++ more := by
      simp
    rw [hsplit]
    unfold sseRun
    rw [List.foldl_append sseStep sseOpen (acts ++ [SSEAction.close]) more]
    have hclosed :
        ((acts ++ [SSEAction.close]).foldl sseStep sseOpen).timerActive =
          false := by
      rw [List.foldl_append]
      rfl
    exact (sse_closed_absorbs more _ hclosed).1
